import Mathlib

/-!
Verification of the systemd-status tray program (src/main.rs), a shallow
embedding of its data model and reconciliation loop in Lean 4.

The program polls systemd over D-Bus for units in the "failed" state and
reflects the result into a tray indicator.  The mutable state is the `Tray`
struct (`stale : bool`, `failed_units : Vec<UnitInfo>`, plus the staged icon
directory).  Each iteration of the loop in `main` performs one tick: on a
successful query it replaces `failed_units` with the new snapshot and clears
`stale`; on a transport error it sets `stale` and leaves `failed_units` alone.
The presentation callbacks `icon_name` and `menu` derive the visible icon and
menu entries from that state.
-/

namespace SystemdStatus

/-- Opaque D-Bus object path (`dbus::Path<'static>` in the source); its
contents are never inspected by the program, only carried, so we model it as
its string representation. -/
def DbusPath := String
deriving DecidableEq, Repr

/-- `UnitInfo` from src/main.rs: the read-only record of one failed unit as
reported by systemd (freedesktop systemd D-Bus interface). -/
structure UnitInfo where
  name : String
  description : String
  load_state : String
  active_state : String
  sub_state : String
  following_unit : String
  object_path : DbusPath
  job_queued : Nat
  job_type : String
  job_object_path : DbusPath
deriving DecidableEq, Repr

/-- `DbusUnitInfoRet` from src/main.rs: the positional 10-tuple shape of one
element of the `ListUnitsFiltered` D-Bus reply, in the wire order
(name, description, load_state, active_state, sub_state, following_unit,
object_path, job_queued, job_type, job_object_path). -/
def DbusUnitInfoRet :=
  String × String × String × String × String × String × DbusPath × Nat ×
    String × DbusPath

/-- `impl From<DbusUnitInfoRet> for UnitInfo` from src/main.rs: maps the
tuple components `x.0 .. x.9` positionally onto the record fields. -/
def UnitInfo.fromDbus (x : DbusUnitInfoRet) : UnitInfo :=
  { name := x.1
    description := x.2.1
    load_state := x.2.2.1
    active_state := x.2.2.2.1
    sub_state := x.2.2.2.2.1
    following_unit := x.2.2.2.2.2.1
    object_path := x.2.2.2.2.2.2.1
    job_queued := x.2.2.2.2.2.2.2.1
    job_type := x.2.2.2.2.2.2.2.2.1
    job_object_path := x.2.2.2.2.2.2.2.2.2 }

/-- A filesystem path as handed back by the OS (`TempDir::path()` in the
source).  A path either decodes as UTF-8 to a Rust `&str` or it does not;
only that distinction is observable through `Path::to_str`. -/
inductive OsPath where
  | utf8 (s : String)
  | nonUtf8 (id : Nat)
deriving DecidableEq, Repr

/-- `Path::to_str` from the Rust standard library as used at
src/main.rs:101: `some` of the string when the path is valid UTF-8,
`none` otherwise. -/
def OsPath.toStr : OsPath → Option String
  | .utf8 s => some s
  | .nonUtf8 _ => none

/-- The `Tray` struct from src/main.rs: the temporary icon directory plus
the two fields of mutable indicator state. -/
structure Tray where
  icon_dir : OsPath
  stale : Bool
  failed_units : List UnitInfo
deriving DecidableEq, Repr

/-- The `to_write` table in `Tray::new` (src/main.rs:68-72): the file names
staged into the icon directory, in source order.  The byte contents are the
embedded PNG assets and are not inspected by any logic. -/
def stagedIconFiles : List String := ["ok.png", "stale.png", "err.png"]

/-- Freedesktop icon-theme resolution of an icon name inside the staged
directory: the asset for icon name `n` is the file `n ++ ".png"`, matching
how `Tray::new` stages `ok.png`/`stale.png`/`err.png` for the icon names
`ok`/`stale`/`err` that `icon_name` returns. -/
def iconAssetFileName (n : String) : String := n ++ ".png"

/-- `Tray::new` from src/main.rs (success path): stages the three icon
files into a fresh temporary directory `dir` and returns the tray with
`stale = true` and `failed_units = Default::default()` (the empty vector).
I/O failures (tempdir creation, file open/write) abort construction with an
error before any `Tray` value exists, so the returned value is always this
one. -/
def Tray.new (dir : OsPath) : Tray :=
  { icon_dir := dir, stale := true, failed_units := [] }

/-- `Tray::icon_theme_path` from src/main.rs:100-102:
`self.icon_dir.path().to_str().unwrap().into()`.  The `unwrap` panic on a
non-UTF-8 path is modelled as `none`. -/
def Tray.icon_theme_path (t : Tray) : Option String :=
  t.icon_dir.toStr

/-- `Tray::icon_name` from src/main.rs:104-113: `"stale"` when `self.stale`,
otherwise `"ok"`/`"err"` by matching `self.failed_units.is_empty()`. -/
def Tray.icon_name (t : Tray) : String :=
  if t.stale then "stale"
  else
    match t.failed_units.isEmpty with
    | true => "ok"
    | false => "err"

/-- `StandardItem` from the ksni menu API as constructed in `Tray::menu`:
only the `label` is set, every other field is left at `Default::default()`,
so the entry is a plain non-actionable label. -/
structure StandardItem where
  label : String
deriving DecidableEq, Repr

/-- `MenuItem` from the ksni menu API: `Tray::menu` only ever builds the
`Standard` variant via `From::from`. -/
inductive MenuItem where
  | standard (item : StandardItem)
deriving DecidableEq, Repr

/-- `Tray::menu` from src/main.rs:115-127: pushes one
`StandardItem { label: ui.name.clone(), ..Default::default() }` per element
of `self.failed_units`, in stored order. -/
def Tray.menu (t : Tray) : List MenuItem :=
  t.failed_units.map (fun ui => .standard { label := ui.name })

/-- The outcome of one `proxy.list_units_filtered(vec!["failed"])` call in
`main`: `ok` with the deserialized unit records, or `err` for a D-Bus
transport/protocol error. -/
inductive PollResult where
  | ok (units : List UnitInfo)
  | err
deriving DecidableEq, Repr

/-- The closure(s) passed to `handle.update` during one loop iteration of
`main` (src/main.rs:146-165).  Each list element is one `handle.update`
call, executed atomically over the shared tray by the ksni service; the
success arm issues a single update writing both fields, the error arm a
single update writing `stale`. -/
def tickUpdates (r : PollResult) : List (Tray → Tray) :=
  match r with
  | .ok infos => [fun t => { t with failed_units := infos, stale := false }]
  | .err => [fun t => { t with stale := true }]

/-- The net effect of one loop iteration of `main` on the tray state:
on success `failed_units := snapshot; stale := false`, on failure
`stale := true`. -/
def tick (t : Tray) (r : PollResult) : Tray :=
  match r with
  | .ok infos => { t with failed_units := infos, stale := false }
  | .err => { t with stale := true }

/-- The tray states a concurrent reader can observe while a tick's update
calls run: the state before any update and the state after each completed
update (ksni's `handle.update` holds the tray exclusively for the whole
closure, so no state inside a closure is observable). -/
def observableStates (t : Tray) : List (Tray → Tray) → List Tray
  | [] => [t]
  | u :: us => t :: observableStates (u t) us

/-- Folding a sequence of poll outcomes through the loop, one tick each. -/
def runTicks (t : Tray) (rs : List PollResult) : Tray :=
  rs.foldl tick t

/-- A concrete failed-unit record (the `foo.service` example of the spec's
scenario section), used to instantiate universally quantified theorems. -/
def fooUnit : UnitInfo :=
  { name := "foo.service"
    description := "A failed service"
    load_state := "loaded"
    active_state := "failed"
    sub_state := "failed"
    following_unit := ""
    object_path := "/org/freedesktop/systemd1/unit/foo"
    job_queued := 0
    job_type := ""
    job_object_path := "/" }

/-- After any run of error-only ticks, a tray that was stale stays stale. -/
theorem stale_after_err_runs (t : Tray) (rs : List PollResult)
    (h : ∀ r ∈ rs, r = PollResult.err) (ht : t.stale = true) :
    (runTicks t rs).stale = true := by
  induction rs generalizing t with
  | nil => simpa [runTicks] using ht
  | cons r rs ih =>
      have hr : r = PollResult.err := h r (by simp)
      subst hr
      have hstep : (tick t PollResult.err).stale = true := by simp [tick]
      simpa [runTicks] using
        ih (tick t PollResult.err) (fun r hr => h r (by simp [hr])) hstep

/-- C1: on a failed tick the transition sets `stale` to true and leaves
`failed_units` exactly as before; in particular when poll K succeeds with a
non-empty snapshot `S` and poll K+1 fails, after poll K+1 `stale` is true
and `failed_units` is still `S`. -/
theorem failure_marks_stale_preserves_failed_units (t : Tray)
    (S : List UnitInfo) (_hS : S ≠ []) :
    (tick t PollResult.err).stale = true ∧
    (tick t PollResult.err).failed_units = t.failed_units ∧
    (tick (tick t (PollResult.ok S)) PollResult.err).stale = true ∧
    (tick (tick t (PollResult.ok S)) PollResult.err).failed_units = S := by
  refine ⟨?_, ?_, ?_, ?_⟩ <;> simp [tick]

/-- Witness for C1 at a concrete tray and the non-empty snapshot
`[fooUnit]`. -/
theorem failure_marks_stale_preserves_failed_units_witness :
    ([fooUnit] : List UnitInfo) ≠ [] ∧
    (tick (tick (Tray.new (OsPath.utf8 "/tmp/icons"))
        (PollResult.ok [fooUnit])) PollResult.err).stale = true ∧
    (tick (tick (Tray.new (OsPath.utf8 "/tmp/icons"))
        (PollResult.ok [fooUnit])) PollResult.err).failed_units = [fooUnit] := by
  have h := failure_marks_stale_preserves_failed_units
    (Tray.new (OsPath.utf8 "/tmp/icons")) [fooUnit] (by simp)
  exact ⟨by simp, h.2.2.1, h.2.2.2⟩

/-- C2: on a successful tick with snapshot `S` (empty included) the
transition replaces `failed_units` wholesale with `S` and sets `stale` to
false. -/
theorem success_replaces_wholesale (t : Tray) (S : List UnitInfo) :
    (tick t (PollResult.ok S)).failed_units = S ∧
    (tick t (PollResult.ok S)).stale = false := by
  exact ⟨rfl, rfl⟩

/-- `icon_name` only ever produces one of the three fixed icon names. -/
theorem icon_name_mem (t : Tray) :
    t.icon_name = "stale" ∨ t.icon_name = "ok" ∨ t.icon_name = "err" := by
  rcases ht : t.stale with _ | _
  · rcases hf : t.failed_units with _ | ⟨u, us⟩
    · right; left; simp [Tray.icon_name, ht, hf]
    · right; right; simp [Tray.icon_name, ht, hf]
  · left; simp [Tray.icon_name, ht]

/-- C3: `icon_name` returns `"stale"` when `stale` holds, else `"ok"` when
`failed_units` is empty, else `"err"`, and never any other string. -/
theorem icon_name_classification (t : Tray) :
    (t.stale = true → t.icon_name = "stale") ∧
    (t.stale = false → t.failed_units = [] → t.icon_name = "ok") ∧
    (t.stale = false → t.failed_units ≠ [] → t.icon_name = "err") ∧
    (t.icon_name = "stale" ∨ t.icon_name = "ok" ∨ t.icon_name = "err") := by
  refine ⟨?_, ?_, ?_, ?_⟩
  · intro h; simp [Tray.icon_name, h]
  · intro h h2; simp [Tray.icon_name, h, h2]
  · intro h h2
    have hf : t.failed_units.isEmpty = false := by
      simpa [List.isEmpty_iff] using h2
    simp [Tray.icon_name, h, hf]
  · exact icon_name_mem t

/-- Witness for C3: all three classification branches at concrete trays. -/
theorem icon_name_classification_witness :
    ({ icon_dir := OsPath.utf8 "/t", stale := true,
        failed_units := [] : Tray }).icon_name = "stale" ∧
    ({ icon_dir := OsPath.utf8 "/t", stale := false,
        failed_units := [] : Tray }).icon_name = "ok" ∧
    ({ icon_dir := OsPath.utf8 "/t", stale := false,
        failed_units := [fooUnit] : Tray }).icon_name = "err" := by
  refine ⟨?_, ?_, ?_⟩
  · exact (icon_name_classification _).1 rfl
  · exact (icon_name_classification _).2.1 rfl rfl
  · exact (icon_name_classification _).2.2.1 rfl (by simp)

/-- C4: construction yields `stale = true` and empty `failed_units`, and as
long as no poll has succeeded (every tick so far errored) `icon_name` is
`"stale"`, whatever `failed_units` holds. -/
theorem initial_state_stale (p : OsPath) (rs : List PollResult)
    (h : ∀ r ∈ rs, r = PollResult.err) :
    (Tray.new p).stale = true ∧
    (Tray.new p).failed_units = [] ∧
    (runTicks (Tray.new p) rs).icon_name = "stale" := by
  refine ⟨rfl, rfl, ?_⟩
  have hs : (runTicks (Tray.new p) rs).stale = true :=
    stale_after_err_runs (Tray.new p) rs h rfl
  simp [Tray.icon_name, hs]

/-- Witness for C4 at a concrete path and two failed ticks. -/
theorem initial_state_stale_witness :
    (∀ r ∈ [PollResult.err, PollResult.err], r = PollResult.err) ∧
    (runTicks (Tray.new (OsPath.utf8 "/tmp/icons"))
        [PollResult.err, PollResult.err]).icon_name = "stale" := by
  have h := initial_state_stale (OsPath.utf8 "/tmp/icons")
    [PollResult.err, PollResult.err] (by simp)
  exact ⟨by simp, h.2.2⟩

/-- C5: along any run from the initial state, a step that leaves
`failed_units` empty while it was non-empty before can only be a successful
poll whose snapshot is itself empty. -/
theorem failed_units_cleared_only_by_empty_success (p : OsPath)
    (rs : List PollResult) (r : PollResult)
    (hne : (runTicks (Tray.new p) rs).failed_units ≠ [])
    (he : (tick (runTicks (Tray.new p) rs) r).failed_units = []) :
    r = PollResult.ok [] := by
  cases r with
  | ok S =>
      have : S = [] := by simpa [tick] using he
      simp [this]
  | err =>
      exact absurd (by simpa [tick] using he) hne

/-- Witness for C5: one successful non-empty poll, then an empty success. -/
theorem failed_units_cleared_only_by_empty_success_witness :
    (runTicks (Tray.new (OsPath.utf8 "/t"))
        [PollResult.ok [fooUnit]]).failed_units ≠ [] ∧
    (tick (runTicks (Tray.new (OsPath.utf8 "/t")) [PollResult.ok [fooUnit]])
        (PollResult.ok [])).failed_units = [] ∧
    PollResult.ok [] = PollResult.ok ([] : List UnitInfo) := by
  refine ⟨by simp [runTicks, tick], by simp [runTicks, tick], ?_⟩
  exact failed_units_cleared_only_by_empty_success (OsPath.utf8 "/t")
    [PollResult.ok [fooUnit]] (PollResult.ok [])
    (by simp [runTicks, tick]) (by simp [runTicks, tick])

/-- C6: the menu has exactly one entry per stored unit record, the i-th
entry is the label of the i-th record's name, and after a successful poll
with snapshot `S` the menu is exactly the names of `S` in order. -/
theorem menu_matches_failed_units (t : Tray) :
    t.menu.length = t.failed_units.length ∧
    (∀ i : Nat, t.menu[i]? =
      (t.failed_units[i]?).map
        (fun u => MenuItem.standard { label := u.name })) ∧
    (∀ S : List UnitInfo, (tick t (PollResult.ok S)).menu =
      S.map (fun u => MenuItem.standard { label := u.name })) := by
  refine ⟨by simp [Tray.menu], ?_, ?_⟩
  · intro i
    simp [Tray.menu, List.getElem?_map]
  · intro S
    simp [Tray.menu, tick]

/-- C7: deserializing a reply tuple maps its ten components positionally
onto the correspondingly named `UnitInfo` fields. -/
theorem dbus_tuple_positional_mapping
    (name description load_state active_state sub_state following_unit :
      String)
    (object_path : DbusPath) (job_queued : Nat) (job_type : String)
    (job_object_path : DbusPath) :
    UnitInfo.fromDbus
      (name, description, load_state, active_state, sub_state,
        following_unit, object_path, job_queued, job_type,
        job_object_path) =
      { name := name, description := description, load_state := load_state,
        active_state := active_state, sub_state := sub_state,
        following_unit := following_unit, object_path := object_path,
        job_queued := job_queued, job_type := job_type,
        job_object_path := job_object_path } := rfl

/-- C8: construction stages exactly three icon files, one per fixed icon
name `ok`/`stale`/`err` and nothing else, and every icon name `icon_name`
can return resolves to a staged file. -/
theorem icon_assets_staged (t : Tray) :
    stagedIconFiles = ["ok", "stale", "err"].map iconAssetFileName ∧
    stagedIconFiles.length = 3 ∧
    stagedIconFiles.Nodup ∧
    iconAssetFileName t.icon_name ∈ stagedIconFiles := by
  refine ⟨by decide, by decide, by decide, ?_⟩
  rcases icon_name_mem t with h | h | h <;>
    simp [h, iconAssetFileName, stagedIconFiles]

/-- C9: each tick issues exactly one exclusive-access update; a concurrent
reader observes only the pre-state or the fully updated post-state (never
`stale = false` with a half-replaced `failed_units`), and running the
updates in order realises exactly the tick transition. -/
theorem tick_is_single_atomic_update (t : Tray) (r : PollResult) :
    (tickUpdates r).length = 1 ∧
    observableStates t (tickUpdates r) = [t, tick t r] ∧
    (tickUpdates r).foldl (fun s u => u s) t = tick t r := by
  cases r <;> exact ⟨rfl, rfl, rfl⟩

/-- C10: `icon_theme_path` returns the icon directory path whenever it is
valid UTF-8 (the `unwrap` panic branch is then unreachable), and panics
(modelled `none`) exactly when the temporary-directory path is not valid
UTF-8. -/
theorem icon_theme_path_unwrap (t : Tray) :
    (∀ s, t.icon_dir = OsPath.utf8 s → t.icon_theme_path = some s) ∧
    (∀ n, t.icon_dir = OsPath.nonUtf8 n → t.icon_theme_path = none) := by
  constructor
  · intro s h; simp [Tray.icon_theme_path, h, OsPath.toStr]
  · intro n h; simp [Tray.icon_theme_path, h, OsPath.toStr]

/-- Witness for C10: a UTF-8 path round trips; a non-decodable path yields
the panic branch. -/
theorem icon_theme_path_unwrap_witness :
    (Tray.new (OsPath.utf8 "/tmp/icons")).icon_theme_path =
      some "/tmp/icons" ∧
    (Tray.new (OsPath.nonUtf8 0)).icon_theme_path = none := by
  exact ⟨(icon_theme_path_unwrap _).1 "/tmp/icons" rfl,
    (icon_theme_path_unwrap _).2 0 rfl⟩

end SystemdStatus
